import Mathlib

/-!
Verification of the Gusto MCP server adapter: a shallow embedding of its
pagination utilities, wire serialization, HTTP status classification,
credential gate and Markdown formatting, translated from the TypeScript
source, together with theorems settling the specified properties.
-/

namespace GustoSpec

/-- JS numeric defaulting: models the expression x || d on a possibly
absent number, where 0 is falsy and is replaced by the default. -/
def jsOrInt (x : Option Int) (d : Int) : Int :=
  match x with
  | none => d
  | some v => if v = 0 then d else v

/-- JS string defaulting: models the expression x || d on a possibly
absent string, where the empty string is falsy. -/
def jsOrStr (x : Option String) (d : String) : String :=
  match x with
  | none => d
  | some s => if s = "" then d else s

/-- Pagination parameters, from types/entities.ts: both fields optional. -/
structure PaginationParams where
  page : Option Int
  per : Option Int
deriving Repr, DecidableEq

/-- PAGINATION_DEFAULTS.per from the pagination utilities. -/
def PAGINATION_DEFAULTS_per : Int := 25

/-- PAGINATION_DEFAULTS.maxPer from the pagination utilities. -/
def PAGINATION_DEFAULTS_maxPer : Int := 100

/-- Return shape of normalizePaginationParams: per is always present. -/
structure NormalizedPaginationParams where
  per : Int
  page : Option Int
deriving Repr, DecidableEq

/-- Embeds normalizePaginationParams from the pagination utilities:
per := Math.min(params?.per || PAGINATION_DEFAULTS.per, maxPer) and the
page field is passed through unchanged. -/
def normalizePaginationParams (params : Option PaginationParams)
    (maxPer : Int) : NormalizedPaginationParams :=
  { per := min (jsOrInt (params.bind (·.per)) PAGINATION_DEFAULTS_per) maxPer
    page := params.bind (·.page) }

/-- PaginatedResponse from types/entities.ts. -/
structure PaginatedResponse (T : Type) where
  items : List T
  count : Nat
  total : Option Int
  hasMore : Bool
  nextPage : Option Int
deriving Repr, DecidableEq

/-- Options argument of createPaginatedResponse. -/
structure CreatePaginatedOptions where
  total : Option Int
  hasMore : Option Bool
  nextPage : Option Int
deriving Repr, DecidableEq

/-- Embeds createPaginatedResponse from the pagination utilities: count is
set to items.length, while total, hasMore and nextPage are taken from the
options record, hasMore defaulting to false via the ?? operator. -/
def createPaginatedResponse {T : Type} (items : List T)
    (options : CreatePaginatedOptions) : PaginatedResponse T :=
  { items := items
    count := items.length
    total := options.total
    hasMore := options.hasMore.getD false
    nextPage := options.nextPage }

/-- Parameter record of GustoClientImpl.listEmployees:
PaginationParams plus the terminated filter. -/
structure ListEmployeesParams where
  page : Option Int
  per : Option Int
  terminated : Option Bool
deriving Repr, DecidableEq

/-- Query-string construction in GustoClientImpl.listEmployees: page and
per are appended only when truthy (if (params?.page), if (params?.per)),
terminated whenever it is not undefined. -/
def listEmployeesQuery (params : Option ListEmployeesParams) :
    List (String × String) :=
  (match params.bind (·.page) with
   | some p => if p = 0 then [] else [("page", toString p)]
   | none => []) ++
  (match params.bind (·.per) with
   | some p => if p = 0 then [] else [("per", toString p)]
   | none => []) ++
  (match params.bind (·.terminated) with
   | some b => [("terminated", toString b)]
   | none => [])

/-- Response construction in GustoClientImpl.listEmployees, applied to the
mapped item list: hasMore is items.length === (params?.per || 25) and
nextPage is (params?.page || 1) + 1 when that comparison holds, else
undefined. -/
def listEmployeesPage (T : Type) (params : Option ListEmployeesParams)
    (items : List T) : PaginatedResponse T :=
  { items := items
    count := items.length
    total := none
    hasMore := decide ((items.length : Int) = jsOrInt (params.bind (·.per)) 25)
    nextPage :=
      if (items.length : Int) = jsOrInt (params.bind (·.per)) 25 then
        some (jsOrInt (params.bind (·.page)) 1 + 1)
      else none }

/-- Input-schema constraint on the per field of the gusto_list_employees
tool: z.number().int().min(1).max(100).optional(). -/
def listEmployeesPerSchemaOk (per : Option Int) : Bool :=
  match per with
  | none => true
  | some p => decide (1 ≤ p) && decide (p ≤ 100)

/-- JSON value on the wire, restricted to the shapes the embedded request
bodies produce; null is included so that not emitting it is a statement
about the code, not the type. -/
inductive WireValue
  | str (s : String)
  | bool (b : Bool)
  | null
deriving Repr, DecidableEq

/-- Models JSON.stringify on an object literal whose field values may be
undefined: a field holding undefined is dropped from the output entirely,
while any present value, null included, is kept. -/
def jsonStringifyFields (fields : List (String × Option WireValue)) :
    List (String × WireValue) :=
  fields.filterMap (fun kv => kv.2.map (fun v => (kv.1, v)))

/-- EmployeeUpdateInput from types/entities.ts: every field optional. -/
structure EmployeeUpdateInput where
  firstName : Option String
  lastName : Option String
  middleName : Option String
  preferredFirstName : Option String
  email : Option String
  dateOfBirth : Option String
  ssn : Option String
  twoPercentShareholder : Option Bool
deriving Repr, DecidableEq

/-- Object literal passed to JSON.stringify in
GustoClientImpl.updateEmployee, camelCase domain fields renamed to their
snake_case wire names. -/
def updateEmployeeFields (d : EmployeeUpdateInput) :
    List (String × Option WireValue) :=
  [ ("first_name", d.firstName.map .str)
  , ("last_name", d.lastName.map .str)
  , ("middle_name", d.middleName.map .str)
  , ("preferred_first_name", d.preferredFirstName.map .str)
  , ("email", d.email.map .str)
  , ("date_of_birth", d.dateOfBirth.map .str)
  , ("ssn", d.ssn.map .str)
  , ("two_percent_shareholder", d.twoPercentShareholder.map .bool) ]

/-- Serialized wire body of GustoClientImpl.updateEmployee. -/
def updateEmployeeBody (d : EmployeeUpdateInput) : List (String × WireValue) :=
  jsonStringifyFields (updateEmployeeFields d)

/-- EmployeeCreateInput from types/entities.ts: firstName and lastName
required, the rest optional. -/
structure EmployeeCreateInput where
  firstName : String
  lastName : String
  middleName : Option String
  dateOfBirth : Option String
  email : Option String
  ssn : Option String
  selfOnboarding : Option Bool
deriving Repr, DecidableEq

/-- Object literal passed to JSON.stringify in
GustoClientImpl.createEmployee. -/
def createEmployeeFields (d : EmployeeCreateInput) :
    List (String × Option WireValue) :=
  [ ("first_name", some (.str d.firstName))
  , ("last_name", some (.str d.lastName))
  , ("middle_name", d.middleName.map .str)
  , ("date_of_birth", d.dateOfBirth.map .str)
  , ("email", d.email.map .str)
  , ("ssn", d.ssn.map .str)
  , ("self_onboarding", d.selfOnboarding.map .bool) ]

/-- Serialized wire body of GustoClientImpl.createEmployee. -/
def createEmployeeBody (d : EmployeeCreateInput) : List (String × WireValue) :=
  jsonStringifyFields (createEmployeeFields d)

/-- Error kinds of the failure taxonomy. Modelled from the spec: the
error-class module (utils/errors.ts with AuthenticationError,
RateLimitError, CrmApiError) is not among the provided sources; kinds
follow the section 7 taxonomy, with CrmApiError as the ApiError kind. -/
inductive ErrorKind
  | Authentication
  | RateLimit
  | ApiError
  | Unknown
deriving Repr, DecidableEq

/-- Classified failure record. Modelled from the spec data model: kind,
message, retryable flag, optional status code and retry-after seconds;
retryability per kind follows section 7 (only RateLimit is retryable). -/
structure ClassifiedError where
  kind : ErrorKind
  message : String
  retryable : Bool
  statusCode : Option Nat
  retryAfterSeconds : Option Int
deriving Repr, DecidableEq

/-- Leading decimal digits of a character list. -/
def leadingDigits (cs : List Char) : List Char :=
  cs.takeWhile (fun c => c.isDigit)

/-- Numeric value of a digit run. -/
def digitsToNat (cs : List Char) : Nat :=
  cs.foldl (fun acc c => acc * 10 + (c.toNat - 48)) 0

/-- Models parseInt(s, 10): an optional sign followed by a leading digit
run; none models the NaN result when no leading digit exists. -/
def jsParseInt (s : String) : Option Int :=
  match s.data with
  | [] => none
  | '-' :: rest =>
      if leadingDigits rest = [] then none
      else some (-(digitsToNat (leadingDigits rest) : Int))
  | '+' :: rest =>
      if leadingDigits rest = [] then none
      else some ((digitsToNat (leadingDigits rest) : Int))
  | cs =>
      if leadingDigits cs = [] then none
      else some ((digitsToNat (leadingDigits cs) : Int))

/-- First element of the errors array, when the array is present. -/
structure ApiErrorsElement where
  message : Option String
deriving Repr, DecidableEq

/-- JSON error body shape inspected by GustoClientImpl.request: the
message, error and errors fields, each possibly absent. -/
structure ApiErrorBody where
  message : Option String
  error : Option String
  errors : Option (List ApiErrorsElement)
deriving Repr, DecidableEq

/-- Upstream HTTP response as seen by the classification logic: the
status code and the Retry-After header. -/
structure HttpResponse where
  status : Nat
  retryAfterHeader : Option String
deriving Repr, DecidableEq

/-- Response.ok of the fetch API: status in the 2xx range. -/
def responseOk (status : Nat) : Bool :=
  decide (200 ≤ status) && decide (status < 300)

/-- Retry seconds chosen in the 429 branch of GustoClientImpl.request:
retryAfter ? parseInt(retryAfter, 10) : 60, where a missing or empty
header is falsy; none models NaN from an unparseable header. -/
def rateLimitRetryAfter (h : Option String) : Option Int :=
  match h with
  | none => some 60
  | some s => if s = "" then some 60 else jsParseInt s

/-- Message extraction for other non-2xx statuses in
GustoClientImpl.request, embedding
errorJson.message || errorJson.error || errorJson.errors?.[0]?.message
with the generic fallback; the body argument is the JSON.parse result,
none standing for a parse failure. -/
def extractApiErrorMessage (status : Nat) (body : Option ApiErrorBody) :
    String :=
  let dflt := "API error: " ++ toString status
  match body with
  | none => dflt
  | some j =>
      jsOrStr j.message
        (jsOrStr j.error
          (jsOrStr ((j.errors.bind List.head?).bind (·.message)) dflt))

/-- Status classification of GustoClientImpl.request, in source order:
429 first, then 401/403, then any other non-ok status; ok statuses
produce no error. -/
def classifyResponse (resp : HttpResponse) (body : Option ApiErrorBody) :
    Option ClassifiedError :=
  if resp.status = 429 then
    some { kind := .RateLimit
           message := "Rate limit exceeded"
           retryable := true
           statusCode := none
           retryAfterSeconds := rateLimitRetryAfter resp.retryAfterHeader }
  else if resp.status = 401 ∨ resp.status = 403 then
    some { kind := .Authentication
           message := "Authentication failed. Check your API credentials."
           retryable := false
           statusCode := none
           retryAfterSeconds := none }
  else if responseOk resp.status then none
  else
    some { kind := .ApiError
           message := extractApiErrorMessage resp.status body
           retryable := false
           statusCode := some resp.status
           retryAfterSeconds := none }

/-- Outcome of one GustoClientImpl.request call, the decoded success body
supplied as a parameter. -/
inductive RequestResult (T : Type)
  | success (v : T)
  | noContent
  | failure (e : ClassifiedError)
deriving Repr, DecidableEq

/-- GustoClientImpl.request: throw the classified error when one exists,
return the no-content sentinel on 204, otherwise the decoded JSON body. -/
def requestResult (T : Type) (resp : HttpResponse) (body : Option ApiErrorBody)
    (decoded : T) : RequestResult T :=
  match classifyResponse resp body with
  | some e => .failure e
  | none => if resp.status = 204 then .noContent else .success decoded

/-- HolidayPayPolicy domain entity from types/entities.ts, reduced to
representative fields; the 404 recovery below does not inspect them. -/
structure HolidayPayPolicy where
  uuid : Option String
  companyUuid : Option String
  name : Option String
  federalHolidays : Option (List String)
deriving Repr, DecidableEq

/-- Result of a client method as observed by a tool handler: a returned
value or a thrown classified error. -/
inductive ClientResult (T : Type)
  | ok (v : T)
  | thrown (e : ClassifiedError)
deriving Repr, DecidableEq

/-- Failure standing for the TypeError a 204 reply would cause when the
wire-to-domain mapping reads fields of an undefined body; the section 7
Unknown kind covers such non-HTTP failures. Unreachable on GET paths. -/
def undefinedAccessError : ClassifiedError :=
  { kind := .Unknown
    message := "TypeError: cannot read properties of undefined"
    retryable := false
    statusCode := none
    retryAfterSeconds := none }

/-- GustoClientImpl.getHolidayPayPolicy: the request outcome with a catch
block that turns a thrown CrmApiError carrying statusCode 404 into a null
result; every other thrown error is rethrown. -/
def getHolidayPayPolicyResult (resp : HttpResponse) (body : Option ApiErrorBody)
    (decoded : HolidayPayPolicy) : ClientResult (Option HolidayPayPolicy) :=
  match requestResult HolidayPayPolicy resp body decoded with
  | .success p => .ok (some p)
  | .noContent => .thrown undefinedAccessError
  | .failure e =>
      if e.kind = .ApiError ∧ e.statusCode = some 404 then .ok none
      else .thrown e

/-- Text content of a tool response, kept symbolic: the JSON rendering of
a value, a JSON message object, or a JSON error object. -/
inductive ToolText (T : Type)
  | jsonOf (v : T)
  | messageObj (s : String)
  | errorObj (s : String)
deriving Repr, DecidableEq

/-- MCP tool response: one text block plus the isError flag, which is
absent (false) on every success path. -/
structure ToolResult (T : Type) where
  text : ToolText T
  isError : Bool
deriving Repr, DecidableEq

/-- Human-readable message built by formatError in utils/formatters.ts:
Error: message, with a retryable suffix when the error is retryable. -/
def formatErrorMessage (e : ClassifiedError) : String :=
  "Error: " ++ e.message ++ (if e.retryable then " (retryable)" else "")

/-- formatError from utils/formatters.ts: an error-flagged result whose
text is the JSON error object. -/
def formatErrorTool (T : Type) (e : ClassifiedError) : ToolResult T :=
  { text := .errorObj (formatErrorMessage e), isError := true }

/-- Handler body of the gusto_get_holiday_pay_policy tool: a null client
result becomes the No-holiday-pay-policy-found message (not error
flagged), a policy is formatted normally, and anything thrown goes
through formatError. -/
def gustoGetHolidayPayPolicyTool (resp : HttpResponse)
    (body : Option ApiErrorBody) (decoded : HolidayPayPolicy) :
    ToolResult (Option HolidayPayPolicy) :=
  match getHolidayPayPolicyResult resp body decoded with
  | .ok none =>
      { text := .messageObj "No holiday pay policy found", isError := false }
  | .ok (some p) => { text := .jsonOf (some p), isError := false }
  | .thrown e => formatErrorTool (Option HolidayPayPolicy) e

/-- Handler body of every other read tool (gusto_get_employee and
friends): the client result is formatted on success and funnelled through
formatError on a thrown failure, with no catch of its own. -/
def genericGetTool (T : Type) (resp : HttpResponse) (body : Option ApiErrorBody)
    (decoded : T) : ToolResult T :=
  match requestResult T resp body decoded with
  | .success v => { text := .jsonOf v, isError := false }
  | .noContent => formatErrorTool T undefinedAccessError
  | .failure e => formatErrorTool T e

/-- Tenant credentials from types/env.ts, as described by the spec data
model: accessToken plus an optional apiVersion. -/
structure TenantCredentials where
  accessToken : String
  apiVersion : Option String
deriving Repr, DecidableEq

/-- Inbound request headers relevant to credential extraction:
X-Gusto-Access-Token and X-Gusto-API-Version. -/
structure InboundHeaders where
  accessToken : Option String
  apiVersion : Option String
deriving Repr, DecidableEq

/-- Modelled from the spec: parseTenantCredentials (types/env.ts is not
among the provided sources) reads the two tenant headers into a
TenantCredentials value; an absent token reads as the empty string so
that validation treats absent and empty alike. -/
def parseTenantCredentials (h : InboundHeaders) : TenantCredentials :=
  { accessToken := h.accessToken.getD "", apiVersion := h.apiVersion }

/-- Modelled from the spec: validateCredentials (types/env.ts is not
among the provided sources) fails with MissingCredentialsError exactly
when the access token is absent or empty. -/
def validateCredentials (c : TenantCredentials) : Except String Unit :=
  if c.accessToken = "" then .error "Missing X-Gusto-Access-Token header"
  else .ok ()

/-- Outcome of the worker fetch handler on the /mcp POST branch: either
the direct 401 transport response, or dispatch into the per-tenant
server. -/
inductive TransportOutcome (A : Type)
  | unauthorized (status : Nat) (message : String)
  | dispatched (a : A)
deriving Repr, DecidableEq

/-- The /mcp POST branch of the worker fetch handler in index.ts: parse
tenant credentials, validate them, answer 401 directly on failure, and
only on success build the stateless server and dispatch. The dispatch
argument stands for createStatelessServer plus the MCP handler and is
applied only after validation succeeds. -/
def handleMcpPost (A : Type) (h : InboundHeaders)
    (dispatch : TenantCredentials → A) : TransportOutcome A :=
  let credentials := parseTenantCredentials h
  match validateCredentials credentials with
  | .error msg => .unauthorized 401 msg
  | .ok _ => .dispatched (dispatch credentials)

/-- GustoClientImpl.getAuthHeaders: throws AuthenticationError when the
per-request token is empty, before any fetch is issued. -/
def getAuthHeaders (c : TenantCredentials) :
    Except ClassifiedError (List (String × String)) :=
  if c.accessToken = "" then
    .error { kind := .Authentication
             message := "No credentials provided. Include X-Gusto-Access-Token header."
             retryable := false
             statusCode := none
             retryAfterSeconds := none }
  else
    .ok [ ("Authorization", "Bearer " ++ c.accessToken)
        , ("Content-Type", "application/json") ]

/-- Employee domain entity from types/entities.ts, reduced to the fields
the employees Markdown table renders. -/
structure Employee where
  uuid : String
  firstName : Option String
  lastName : Option String
  email : Option String
  terminated : Option Bool
  currentEmploymentStatus : Option String
  onboarded : Option Bool
deriving Repr, DecidableEq

/-- JS truthiness of a possibly absent boolean. -/
def jsTruthyBool (b : Option Bool) : Bool :=
  b.getD false

/-- Template-literal rendering of a possibly absent number: undefined
interpolates as the text undefined. -/
def jsNumToString (x : Option Int) : String :=
  match x with
  | none => "undefined"
  | some n => toString n

/-- The capitalize helper of utils/formatters.ts. -/
def capitalize (s : String) : String :=
  match s.data with
  | [] => ""
  | c :: cs => String.mk (c.toUpper :: cs)

/-- Name cell of one employees-table row:
firstName plus lastName, trimmed, with a dash fallback. -/
def employeeName (e : Employee) : String :=
  jsOrStr (some ((e.firstName.getD "" ++ " " ++ e.lastName.getD "").trim)) "-"

/-- One row of the employees Markdown table in formatEmployeesTable. -/
def employeeRow (e : Employee) : String :=
  "| " ++ e.uuid ++ " | " ++ employeeName e ++ " | " ++ jsOrStr e.email "-"
    ++ " | "
    ++ (if jsTruthyBool e.terminated then "Terminated"
        else jsOrStr e.currentEmploymentStatus "Active")
    ++ " | " ++ (if jsTruthyBool e.onboarded then "Yes" else "No") ++ " |"

/-- formatEmployeesTable from utils/formatters.ts. -/
def formatEmployeesTable (es : List Employee) : String :=
  String.intercalate "\n"
    ([ "| UUID | Name | Email | Status | Onboarded |"
     , "|---|---|---|---|---|" ] ++ es.map employeeRow)

/-- Header lines pushed by formatPaginatedAsMarkdown before the emptiness
check: title, count line (with or without total), optional more-available
line, and a blank separator. -/
def paginatedHeaderLines (T : Type) (data : PaginatedResponse T)
    (entityType : String) : List String :=
  ["## " ++ capitalize entityType, ""] ++
  (match data.total with
   | some t =>
       ["**Total:** " ++ toString t ++ " | **Showing:** " ++ toString data.count]
   | none => ["**Showing:** " ++ toString data.count]) ++
  (if data.hasMore then
     ["**More available:** Yes (page: " ++ jsNumToString data.nextPage ++ ")"]
   else []) ++
  [""]

/-- Line construction of formatPaginatedAsMarkdown in
utils/formatters.ts, parametric in the entity-specific table renderer
that the switch statement on entityType selects; the renderer runs only
in the nonempty branch, exactly as the switch sits after the early
return of the No-items notice. -/
def formatPaginatedLines (T : Type) (data : PaginatedResponse T)
    (entityType : String) (tableOf : String → List T → String) : List String :=
  if data.items.length = 0 then
    paginatedHeaderLines T data entityType ++ ["_No items found._"]
  else
    paginatedHeaderLines T data entityType ++ [tableOf entityType data.items]

/-- formatPaginatedAsMarkdown: the constructed lines joined with
newlines. -/
def formatPaginatedAsMarkdown (T : Type) (data : PaginatedResponse T)
    (entityType : String) (tableOf : String → List T → String) : String :=
  String.intercalate "\n" (formatPaginatedLines T data entityType tableOf)

/-- Check whether a rendered line is a Markdown table line, which always
begins with a pipe character. -/
def lineIsTableRow (l : String) : Bool :=
  match l.data with
  | [] => false
  | c :: _ => c = '|'

/-- Concrete update input used to instantiate the serialization theorem:
email set, the remaining optional fields left undefined. -/
def sampleUpdateInput : EmployeeUpdateInput :=
  { firstName := some "Ada"
    lastName := none
    middleName := none
    preferredFirstName := none
    email := some "ada@example.com"
    dateOfBirth := none
    ssn := none
    twoPercentShareholder := none }

/-- Concrete create input used to instantiate the serialization
theorem. -/
def sampleCreateInput : EmployeeCreateInput :=
  { firstName := "Grace"
    lastName := "Hopper"
    middleName := none
    dateOfBirth := none
    email := none
    ssn := none
    selfOnboarding := some true }

/-- Concrete empty employees page used to instantiate the Markdown
formatting theorem. -/
def emptyEmployeesPage : PaginatedResponse Employee :=
  { items := [], count := 0, total := none, hasMore := false, nextPage := none }

/-- Concrete holiday-pay policy used to instantiate the 404 recovery
theorem. -/
def samplePolicy : HolidayPayPolicy :=
  { uuid := none, companyUuid := none, name := none, federalHolidays := none }

theorem jsOrInt_some_of_ne (v d : Int) (h : v ≠ 0) : jsOrInt (some v) d = v := by
  simp [jsOrInt, h]

theorem jsOrInt_eq_getD (x : Option Int) (d : Int) (hx : x ≠ some 0) :
    jsOrInt x d = x.getD d := by
  cases x with
  | none => rfl
  | some v =>
      have hv : v ≠ 0 := by
        intro h
        exact hx (by rw [h])
      simp [jsOrInt, hv]

/-- C7 counterexample: with a requested page size of 0 the code returns
the default 25, not min(0, maxPer) = 0, because the JS expression
params?.per || 25 treats 0 as falsy. -/
theorem normalizePaginationParams_zero_counterexample :
    (normalizePaginationParams (some ⟨none, some 0⟩) 100).per = 25 ∧
    (25 : Int) ≠ min 0 100 := by
  exact ⟨by decide, by decide⟩

/-- C7 (amended): when a nonzero page size p is requested the result is
min(p, maxPer); when per is unspecified or 0 (falsy) the result is
min(25, maxPer); the result never exceeds maxPer, and the two quoted
instances hold. -/
theorem normalizePaginationParams_clamp (params : Option PaginationParams)
    (maxPer : Int) :
    (∀ p : Int, p ≠ 0 → params.bind (·.per) = some p →
       (normalizePaginationParams params maxPer).per = min p maxPer) ∧
    ((params.bind (·.per) = none ∨ params.bind (·.per) = some 0) →
       (normalizePaginationParams params maxPer).per = min 25 maxPer) ∧
    (normalizePaginationParams params maxPer).per ≤ maxPer ∧
    (normalizePaginationParams (some ⟨none, some 500⟩) 100).per = 100 ∧
    (normalizePaginationParams (some ⟨none, none⟩) 100).per = 25 := by
  refine ⟨?_, ?_, ?_, by decide, by decide⟩
  · intro p hp hbind
    simp [normalizePaginationParams, hbind, jsOrInt, hp, PAGINATION_DEFAULTS_per]
  · intro h
    rcases h with h | h <;>
      simp [normalizePaginationParams, h, jsOrInt, PAGINATION_DEFAULTS_per]
  · simp [normalizePaginationParams]

/-- Witness for the amended C7 theorem at concrete inputs. -/
theorem normalizePaginationParams_clamp_witness :
    (normalizePaginationParams (some ⟨none, some 500⟩) 100).per = min 500 100 ∧
    (normalizePaginationParams (some ⟨none, none⟩) 100).per = 25 := by
  exact ⟨(normalizePaginationParams_clamp (some ⟨none, some 500⟩) 100).1 500
           (by decide) rfl,
         (normalizePaginationParams_clamp (some ⟨none, none⟩) 100).2.2.2.2⟩

/-- C8 counterexample: the Pagination Helper takes hasMore and nextPage
straight from the caller-supplied options record, so identical item lists
yield different hasMore values depending only on what the caller
supplies, contradicting that they are derived rather than supplied. -/
theorem createPaginatedResponse_supplied_counterexample :
    (createPaginatedResponse ([] : List Nat) ⟨none, some true, some 7⟩).hasMore
      = true ∧
    (createPaginatedResponse ([] : List Nat) ⟨none, some false, none⟩).hasMore
      = false ∧
    (createPaginatedResponse ([] : List Nat) ⟨none, some true, some 7⟩).nextPage
      = some 7 := by
  exact ⟨rfl, rfl, rfl⟩

/-- C8 (amended): count equals items.length in both constructions, but
createPaginatedResponse passes hasMore (defaulting to false) and
nextPage through from its caller, while the program's only
PaginatedResponse producer, listEmployees, builds the record inline with
hasMore and nextPage derived from the item count, per and page, without
calling the helper. -/
theorem paginatedResponse_construction (T : Type) (items : List T)
    (options : CreatePaginatedOptions) (params : Option ListEmployeesParams) :
    (createPaginatedResponse items options).count = items.length ∧
    (createPaginatedResponse items options).hasMore
      = options.hasMore.getD false ∧
    (createPaginatedResponse items options).nextPage = options.nextPage ∧
    (listEmployeesPage T params items).count = items.length ∧
    ((listEmployeesPage T params items).hasMore = true ↔
       (items.length : Int) = jsOrInt (params.bind (·.per)) 25) ∧
    ((listEmployeesPage T params items).nextPage = none ↔
       (listEmployeesPage T params items).hasMore = false) := by
  refine ⟨rfl, rfl, rfl, rfl, by simp [listEmployeesPage], ?_⟩
  by_cases hc : (items.length : Int) = jsOrInt (params.bind (·.per)) 25 <;>
    simp [listEmployeesPage, hc]

theorem mem_listEmployeesQuery_per (params : ListEmployeesParams) (q : String) :
    ("per", q) ∈ listEmployeesQuery (some params) ↔
    ∃ p, params.per = some p ∧ p ≠ 0 ∧ q = toString p := by
  obtain ⟨pg, pr, tm⟩ := params
  cases pg <;> cases pr <;> cases tm <;> simp [listEmployeesQuery]

/-- C6: when the returned page holds exactly the requested page size
(per, defaulting to 25) the listEmployees response reports hasMore with
nextPage = page + 1 (page defaulting to 1); a shorter page reports
hasMore false and no nextPage. The hypotheses excluding a zero per and
page reflect the tool input schema, which requires both to be at least
1 when given. -/
theorem listEmployees_hasMore_heuristic (T : Type)
    (params : Option ListEmployeesParams) (items : List T)
    (hper : params.bind (·.per) ≠ some 0)
    (hpage : params.bind (·.page) ≠ some 0) :
    ((items.length : Int) = (params.bind (·.per)).getD 25 →
       (listEmployeesPage T params items).hasMore = true ∧
       (listEmployeesPage T params items).nextPage
         = some ((params.bind (·.page)).getD 1 + 1)) ∧
    ((items.length : Int) < (params.bind (·.per)).getD 25 →
       (listEmployeesPage T params items).hasMore = false ∧
       (listEmployeesPage T params items).nextPage = none) := by
  have hgper : jsOrInt (params.bind (·.per)) 25 = (params.bind (·.per)).getD 25 :=
    jsOrInt_eq_getD _ _ hper
  have hgpage : jsOrInt (params.bind (·.page)) 1 = (params.bind (·.page)).getD 1 :=
    jsOrInt_eq_getD _ _ hpage
  constructor
  · intro hfull
    constructor
    · simp [listEmployeesPage, hgper, hfull]
    · simp [listEmployeesPage, hgper, hgpage, hfull]
  · intro hshort
    have hne : (items.length : Int) ≠ (params.bind (·.per)).getD 25 :=
      ne_of_lt hshort
    constructor
    · simp [listEmployeesPage, hgper, hne]
    · simp [listEmployeesPage, hgper, hne]

/-- Witness for the C6 theorem: a full page of two items with per = 2 and
page = 1 reports hasMore with nextPage 2. -/
theorem listEmployees_hasMore_heuristic_witness :
    (listEmployeesPage Nat (some ⟨some 1, some 2, none⟩) [10, 20]).hasMore
      = true ∧
    (listEmployeesPage Nat (some ⟨some 1, some 2, none⟩) [10, 20]).nextPage
      = some 2 := by
  have h := listEmployees_hasMore_heuristic Nat (some ⟨some 1, some 2, none⟩)
    [10, 20] (by decide) (by decide)
  exact h.1 (by decide)

/-- C10: the listEmployees client path applies no page-size clamping of
its own: a schema-valid per is forwarded verbatim as the only per entry
of the upstream query string and compared verbatim in the hasMore check;
the tool input schema accepts per exactly up to 100; and, by contrast,
the never-invoked normalizePaginationParams would have clamped 500 to
100 while the query string carries 500 unchanged. -/
theorem listEmployees_forwards_per (params : ListEmployeesParams) (p : Int)
    (hp : params.per = some p) (h1 : 1 ≤ p) :
    ("per", toString p) ∈ listEmployeesQuery (some params) ∧
    (∀ q, ("per", q) ∈ listEmployeesQuery (some params) → q = toString p) ∧
    (∀ (T : Type) (items : List T),
       (listEmployeesPage T (some params) items).hasMore
         = decide ((items.length : Int) = p)) ∧
    (∀ per : Option Int, listEmployeesPerSchemaOk per = true ↔
       per = none ∨ ∃ n, per = some n ∧ 1 ≤ n ∧ n ≤ 100) ∧
    (normalizePaginationParams (some ⟨none, some 500⟩) 100).per = 100 ∧
    ("per", toString (500 : Int)) ∈ listEmployeesQuery (some ⟨none, some 500, none⟩) := by
  have hp0 : p ≠ 0 := by omega
  refine ⟨?_, ?_, ?_, ?_, by decide, ?_⟩
  · exact (mem_listEmployeesQuery_per params (toString p)).2 ⟨p, hp, hp0, rfl⟩
  · intro q hq
    obtain ⟨p', hp', _, hq'⟩ := (mem_listEmployeesQuery_per params q).1 hq
    rw [hp] at hp'
    cases hp'
    exact hq'
  · intro T items
    simp [listEmployeesPage, hp, jsOrInt_some_of_ne p 25 hp0]
  · intro per
    cases per <;> simp [listEmployeesPerSchemaOk]
  · exact (mem_listEmployeesQuery_per ⟨none, some 500, none⟩ (toString (500 : Int))).2
      ⟨500, rfl, by decide, rfl⟩

/-- Witness for the C10 theorem at per = 30. -/
theorem listEmployees_forwards_per_witness :
    ("per", toString (30 : Int)) ∈ listEmployeesQuery (some ⟨none, some 30, none⟩) := by
  exact (listEmployees_forwards_per ⟨none, some 30, none⟩ 30 rfl (by decide)).1

theorem mem_jsonStringifyFields (fs : List (String × Option WireValue))
    (k : String) (w : WireValue) :
    (k, w) ∈ jsonStringifyFields fs ↔ (k, some w) ∈ fs := by
  simp only [jsonStringifyFields, List.mem_filterMap, Option.map_eq_some',
    Prod.mk.injEq]
  constructor
  · rintro ⟨⟨k', ov⟩, hmem, v, hov, hk, hv⟩
    subst hk
    subst hv
    subst hov
    exact hmem
  · intro hmem
    exact ⟨(k, some w), hmem, w, rfl, rfl, rfl⟩

theorem some_eq_map_str (w : WireValue) (x : Option String) :
    some w = Option.map WireValue.str x ↔
    ∃ s, w = WireValue.str s ∧ x = some s := by
  cases x <;> simp [eq_comm]

theorem some_eq_map_bool (w : WireValue) (x : Option Bool) :
    some w = Option.map WireValue.bool x ↔
    ∃ b, w = WireValue.bool b ∧ x = some b := by
  cases x <;> simp [eq_comm]

/-- C1: the serialized bodies of updateEmployee and createEmployee never
contain a null value, and each supported camelCase domain field appears
under its snake_case wire name exactly when it is set, with the set
value; an undefined field is omitted entirely. -/
theorem toWire_omits_undefined_never_null (d : EmployeeUpdateInput)
    (c : EmployeeCreateInput) :
    (∀ k, (k, WireValue.null) ∉ updateEmployeeBody d) ∧
    (∀ k, (k, WireValue.null) ∉ createEmployeeBody c) ∧
    (∀ w, ("first_name", w) ∈ updateEmployeeBody d ↔
       ∃ s, w = WireValue.str s ∧ d.firstName = some s) ∧
    (∀ w, ("last_name", w) ∈ updateEmployeeBody d ↔
       ∃ s, w = WireValue.str s ∧ d.lastName = some s) ∧
    (∀ w, ("middle_name", w) ∈ updateEmployeeBody d ↔
       ∃ s, w = WireValue.str s ∧ d.middleName = some s) ∧
    (∀ w, ("preferred_first_name", w) ∈ updateEmployeeBody d ↔
       ∃ s, w = WireValue.str s ∧ d.preferredFirstName = some s) ∧
    (∀ w, ("email", w) ∈ updateEmployeeBody d ↔
       ∃ s, w = WireValue.str s ∧ d.email = some s) ∧
    (∀ w, ("date_of_birth", w) ∈ updateEmployeeBody d ↔
       ∃ s, w = WireValue.str s ∧ d.dateOfBirth = some s) ∧
    (∀ w, ("ssn", w) ∈ updateEmployeeBody d ↔
       ∃ s, w = WireValue.str s ∧ d.ssn = some s) ∧
    (∀ w, ("two_percent_shareholder", w) ∈ updateEmployeeBody d ↔
       ∃ b, w = WireValue.bool b ∧ d.twoPercentShareholder = some b) ∧
    (∀ w, ("first_name", w) ∈ createEmployeeBody c ↔ w = WireValue.str c.firstName) ∧
    (∀ w, ("last_name", w) ∈ createEmployeeBody c ↔ w = WireValue.str c.lastName) ∧
    (∀ w, ("middle_name", w) ∈ createEmployeeBody c ↔
       ∃ s, w = WireValue.str s ∧ c.middleName = some s) ∧
    (∀ w, ("date_of_birth", w) ∈ createEmployeeBody c ↔
       ∃ s, w = WireValue.str s ∧ c.dateOfBirth = some s) ∧
    (∀ w, ("email", w) ∈ createEmployeeBody c ↔
       ∃ s, w = WireValue.str s ∧ c.email = some s) ∧
    (∀ w, ("ssn", w) ∈ createEmployeeBody c ↔
       ∃ s, w = WireValue.str s ∧ c.ssn = some s) ∧
    (∀ w, ("self_onboarding", w) ∈ createEmployeeBody c ↔
       ∃ b, w = WireValue.bool b ∧ c.selfOnboarding = some b) := by
  refine ⟨?_, ?_, ?_, ?_, ?_, ?_, ?_, ?_, ?_, ?_, ?_, ?_, ?_, ?_, ?_, ?_, ?_⟩ <;>
    intro w <;>
    simp [updateEmployeeBody, createEmployeeBody, mem_jsonStringifyFields,
      updateEmployeeFields, createEmployeeFields, some_eq_map_str,
      some_eq_map_bool, eq_comm, and_comm]

/-- Witness for the C1 theorem at concrete inputs: the set email field is
on the wire, the undefined middle_name is absent in every shape, and no
null appears. -/
theorem toWire_omits_undefined_never_null_witness :
    (("email", WireValue.str "ada@example.com") ∈ updateEmployeeBody sampleUpdateInput) ∧
    (("middle_name", WireValue.str "X") ∉ updateEmployeeBody sampleUpdateInput) ∧
    (("middle_name", WireValue.null) ∉ updateEmployeeBody sampleUpdateInput) ∧
    (("self_onboarding", WireValue.bool true) ∈ createEmployeeBody sampleCreateInput) := by
  have h := toWire_omits_undefined_never_null sampleUpdateInput sampleCreateInput
  refine ⟨?_, ?_, ?_, ?_⟩
  · exact (h.2.2.2.2.2.2.1 (WireValue.str "ada@example.com")).2
      ⟨"ada@example.com", rfl, rfl⟩
  · intro hmem
    obtain ⟨s, hs, hnone⟩ := (h.2.2.2.2.1 (WireValue.str "X")).1 hmem
    exact Option.noConfusion hnone
  · exact h.1 "middle_name"
  · exact (h.2.2.2.2.2.2.2.2.2.2.2.2.2.2.2.2 (WireValue.bool true)).2 ⟨true, rfl, rfl⟩

/-- C4: every 429 response classifies as a retryable RateLimit failure
whose retry-after seconds are the parsed Retry-After header, 60 when the
header is absent. -/
theorem status_429_rate_limit (resp : HttpResponse) (body : Option ApiErrorBody)
    (h : resp.status = 429) :
    ∃ e, classifyResponse resp body = some e ∧ e.kind = .RateLimit ∧
      e.retryable = true ∧
      (resp.retryAfterHeader = none → e.retryAfterSeconds = some 60) ∧
      (∀ s n, resp.retryAfterHeader = some s → jsParseInt s = some n →
         e.retryAfterSeconds = some n) := by
  have hc : classifyResponse resp body
      = some { kind := .RateLimit
               message := "Rate limit exceeded"
               retryable := true
               statusCode := none
               retryAfterSeconds := rateLimitRetryAfter resp.retryAfterHeader } := by
    simp [classifyResponse, h]
  refine ⟨_, hc, rfl, rfl, ?_, ?_⟩
  · intro hnone
    simp [rateLimitRetryAfter, hnone]
  · intro s n hs hn
    by_cases hse : s = ""
    · subst hse
      rw [show jsParseInt "" = none from rfl] at hn
      exact Option.noConfusion hn
    · simp [rateLimitRetryAfter, hs, hse, hn]

/-- Witness for the C4 theorem: a 429 with Retry-After 30. -/
theorem status_429_rate_limit_witness :
    ∃ e, classifyResponse ⟨429, some "30"⟩ none = some e ∧
      e.kind = .RateLimit ∧ e.retryable = true ∧
      e.retryAfterSeconds = some 30 := by
  obtain ⟨e, hc, hk, hr, _, hp⟩ := status_429_rate_limit ⟨429, some "30"⟩ none rfl
  exact ⟨e, hc, hk, hr, hp "30" 30 rfl (by decide)⟩

/-- C5: every non-2xx status other than 429, 401, 403 (204 being 2xx
anyway) classifies as a non-retryable ApiError that preserves the status
code, with the message chosen from the parsed body in priority order
message, error, first element of errors, and the generic fallback when
parsing failed or all of these are absent or empty. -/
theorem api_error_message_priority (resp : HttpResponse)
    (body : Option ApiErrorBody)
    (h429 : resp.status ≠ 429) (h401 : resp.status ≠ 401)
    (h403 : resp.status ≠ 403) (_h204 : resp.status ≠ 204)
    (hok : responseOk resp.status = false) :
    ∃ e, classifyResponse resp body = some e ∧ e.kind = .ApiError ∧
      e.retryable = false ∧ e.statusCode = some resp.status ∧
      (body = none → e.message = "API error: " ++ toString resp.status) ∧
      (∀ j m, body = some j → j.message = some m → m ≠ "" →
         e.message = m) ∧
      (∀ j er, body = some j → (j.message = none ∨ j.message = some "") →
         j.error = some er → er ≠ "" → e.message = er) ∧
      (∀ j m, body = some j → (j.message = none ∨ j.message = some "") →
         (j.error = none ∨ j.error = some "") →
         (j.errors.bind List.head?).bind (·.message) = some m → m ≠ "" →
         e.message = m) ∧
      (∀ j, body = some j → (j.message = none ∨ j.message = some "") →
         (j.error = none ∨ j.error = some "") →
         ((j.errors.bind List.head?).bind (·.message) = none ∨
          (j.errors.bind List.head?).bind (·.message) = some "") →
         e.message = "API error: " ++ toString resp.status) := by
  have hc : classifyResponse resp body
      = some { kind := .ApiError
               message := extractApiErrorMessage resp.status body
               retryable := false
               statusCode := some resp.status
               retryAfterSeconds := none } := by
    simp [classifyResponse, h429, h401, h403, hok]
  refine ⟨_, hc, rfl, rfl, rfl, ?_, ?_, ?_, ?_, ?_⟩
  · intro hb
    simp [extractApiErrorMessage, hb]
  · intro j m hb hm hne
    simp [extractApiErrorMessage, hb, jsOrStr, hm, hne]
  · intro j er hb hmf he hne
    rcases hmf with hmf | hmf <;>
      simp [extractApiErrorMessage, hb, jsOrStr, hmf, he, hne]
  · intro j m hb hmf hef hm hne
    rcases hmf with hmf | hmf <;> rcases hef with hef | hef <;>
      simp [extractApiErrorMessage, hb, jsOrStr, hmf, hef, hm, hne]
  · intro j hb hmf hef herf
    rcases hmf with hmf | hmf <;> rcases hef with hef | hef <;>
      rcases herf with herf | herf <;>
      simp [extractApiErrorMessage, hb, jsOrStr, hmf, hef, herf]

/-- Witness for the C5 theorem: a 422 whose body carries a message
field. -/
theorem api_error_message_priority_witness :
    ∃ e, classifyResponse ⟨422, none⟩
        (some ⟨some "Invalid request", none, none⟩) = some e ∧
      e.message = "Invalid request" ∧ e.kind = .ApiError ∧
      e.statusCode = some 422 := by
  obtain ⟨e, hc, hk, _, hsc, _, hm, _, _, _⟩ :=
    api_error_message_priority ⟨422, none⟩
      (some ⟨some "Invalid request", none, none⟩)
      (by decide) (by decide) (by decide) (by decide) (by decide)
  exact ⟨e, hc, hm _ "Invalid request" rfl rfl (by decide), hk, hsc⟩

/-- C3: a 404 on the holiday-pay-policy read path is recovered into the
No-holiday-pay-policy-found success message (not error flagged), while
the same 404 on any other endpoint surfaces as an ApiError failure whose
tool result is error flagged. -/
theorem holiday_404_recovered (resp : HttpResponse) (body : Option ApiErrorBody)
    (decoded : HolidayPayPolicy) (T : Type) (decodedT : T)
    (h : resp.status = 404) :
    gustoGetHolidayPayPolicyTool resp body decoded
      = { text := .messageObj "No holiday pay policy found", isError := false } ∧
    (gustoGetHolidayPayPolicyTool resp body decoded).isError = false ∧
    (∃ e, requestResult T resp body decodedT = .failure e ∧
       e.kind = .ApiError ∧ e.statusCode = some 404 ∧ e.retryable = false) ∧
    (genericGetTool T resp body decodedT).isError = true := by
  have hc : classifyResponse resp body
      = some { kind := .ApiError
               message := extractApiErrorMessage 404 body
               retryable := false
               statusCode := some 404
               retryAfterSeconds := none } := by
    simp [classifyResponse, h, responseOk]
  have hreq : requestResult T resp body decodedT
      = .failure { kind := .ApiError
                   message := extractApiErrorMessage 404 body
                   retryable := false
                   statusCode := some 404
                   retryAfterSeconds := none } := by
    simp [requestResult, hc]
  refine ⟨?_, ?_, ⟨_, hreq, rfl, rfl, rfl⟩, ?_⟩
  · have hreqH : requestResult HolidayPayPolicy resp body decoded
        = .failure { kind := .ApiError
                     message := extractApiErrorMessage 404 body
                     retryable := false
                     statusCode := some 404
                     retryAfterSeconds := none } := by
      simp [requestResult, hc]
    simp [gustoGetHolidayPayPolicyTool, getHolidayPayPolicyResult, hreqH]
  · have hreqH : requestResult HolidayPayPolicy resp body decoded
        = .failure { kind := .ApiError
                     message := extractApiErrorMessage 404 body
                     retryable := false
                     statusCode := some 404
                     retryAfterSeconds := none } := by
      simp [requestResult, hc]
    simp [gustoGetHolidayPayPolicyTool, getHolidayPayPolicyResult, hreqH]
  · simp [genericGetTool, hreq, formatErrorTool]

/-- Witness for the C3 theorem at a concrete 404. -/
theorem holiday_404_recovered_witness :
    gustoGetHolidayPayPolicyTool ⟨404, none⟩ none samplePolicy
      = { text := .messageObj "No holiday pay policy found", isError := false } ∧
    (genericGetTool Nat ⟨404, none⟩ none 0).isError = true := by
  obtain ⟨h1, _, _, h4⟩ :=
    holiday_404_recovered ⟨404, none⟩ none samplePolicy Nat 0 rfl
  exact ⟨h1, h4⟩

/-- C2: an inbound /mcp request whose access token header is absent or
empty is answered directly with the 401 transport response, for every
possible downstream dispatch function (so no downstream component, and
in particular no outbound HTTP call, is reached), and even the
client-side getAuthHeaders guard would fail with an Authentication
error before any fetch. -/
theorem missing_token_rejected (h : InboundHeaders)
    (hm : h.accessToken = none ∨ h.accessToken = some "") :
    (∀ (A : Type) (dispatch : TenantCredentials → A),
       handleMcpPost A h dispatch
         = .unauthorized 401 "Missing X-Gusto-Access-Token header") ∧
    (∃ e, getAuthHeaders (parseTenantCredentials h) = .error e ∧
       e.kind = .Authentication) := by
  have htok : (parseTenantCredentials h).accessToken = "" := by
    rcases hm with hm | hm <;> simp [parseTenantCredentials, hm]
  constructor
  · intro A dispatch
    simp [handleMcpPost, validateCredentials, htok]
  · refine ⟨{ kind := .Authentication
              message := "No credentials provided. Include X-Gusto-Access-Token header."
              retryable := false
              statusCode := none
              retryAfterSeconds := none }, ?_, rfl⟩
    simp [getAuthHeaders, htok]

/-- Witness for the C2 theorem: a header set with no token at all. -/
theorem missing_token_rejected_witness :
    handleMcpPost Nat ⟨none, none⟩ (fun _ => 7)
      = .unauthorized 401 "Missing X-Gusto-Access-Token header" := by
  exact (missing_token_rejected ⟨none, none⟩ (Or.inl rfl)).1 Nat (fun _ => 7)

theorem paginatedHeaderLines_no_table (T : Type) (data : PaginatedResponse T)
    (et : String) :
    ∀ l ∈ paginatedHeaderLines T data et, lineIsTableRow l = false := by
  intro l hl
  rcases data with ⟨items, count, total, hasMore, nextPage⟩
  cases total <;> cases hasMore <;>
    simp only [paginatedHeaderLines] at hl <;>
    fin_cases hl <;> rfl

/-- C9: for any paginated collection with an empty items array, the
Markdown rendering consists of the header lines plus the explicit
No-items-found notice, contains the notice, contains no table line, and
does not depend on the entity table renderer at all. -/
theorem empty_paginated_markdown_notice (T : Type) (data : PaginatedResponse T)
    (et : String) (tableOf : String → List T → String)
    (h : data.items = []) :
    formatPaginatedLines T data et tableOf
      = paginatedHeaderLines T data et ++ ["_No items found._"] ∧
    "_No items found._" ∈ formatPaginatedLines T data et tableOf ∧
    (∀ l ∈ formatPaginatedLines T data et tableOf, lineIsTableRow l = false) ∧
    (∀ tableOf2, formatPaginatedLines T data et tableOf
       = formatPaginatedLines T data et tableOf2) := by
  have hlen : data.items.length = 0 := by
    rw [h]
    rfl
  have heq : formatPaginatedLines T data et tableOf
      = paginatedHeaderLines T data et ++ ["_No items found._"] := by
    simp [formatPaginatedLines, hlen]
  refine ⟨heq, ?_, ?_, ?_⟩
  · rw [heq]
    simp
  · intro l hl
    rw [heq] at hl
    rcases List.mem_append.1 hl with hl | hl
    · exact paginatedHeaderLines_no_table T data et l hl
    · simp at hl
      subst hl
      rfl
  · intro tableOf2
    rw [heq]
    simp [formatPaginatedLines, hlen]

/-- Witness for the C9 theorem: the empty employees page. -/
theorem empty_paginated_markdown_notice_witness :
    "_No items found._" ∈ formatPaginatedLines Employee emptyEmployeesPage
      "employees" (fun _ items => formatEmployeesTable items) := by
  exact (empty_paginated_markdown_notice Employee emptyEmployeesPage "employees"
    (fun _ items => formatEmployeesTable items) rfl).2.1

end GustoSpec
